import Mathlib

/-!
Verification development for the Meddy backend (`main.py`).

Text is modelled as `List Char` (Python `str`).  Each FastAPI handler of
`main.py` is embedded as a pure Lean function over an explicit session
state and an environment of external collaborators (the document
extraction library and the retry-wrapped model-chain invoker), both of
which may raise; a raised Python exception is modelled as `Except.error`
carrying `str(e)`.  Each handler additionally returns the list of prompts
it sent to the model chain, so that "the model chain is never invoked"
is the statement that this trace is empty.
-/

/-- Coerce a Lean string literal to the `List Char` representation of text. -/
def txt (s : String) : List Char := s.data

/-! ### Python `str.strip()` (`main.py` lines 42, 74, 163, 184) -/

/-- The characters removed by Python `str.strip()` (ASCII whitespace). -/
def isPySpace (c : Char) : Bool :=
  (c == ' ') || (c == '\t') || (c == '\n') || (c == '\r') || (c == '\x0b') || (c == '\x0c')

/-- Left part of Python `str.strip()`. -/
def pyTrimLeft (s : List Char) : List Char := s.dropWhile isPySpace

/-- Right part of Python `str.strip()`. -/
def pyTrimRight (s : List Char) : List Char := (s.reverse.dropWhile isPySpace).reverse

/-- Python `str.strip()`. -/
def pyStrip (s : List Char) : List Char := pyTrimRight (pyTrimLeft s)

/-! ### The fence-stripping regex
`re.sub(r"^```json|```$", "", raw_response.strip()).strip()` (lines 74, 163).

Without `re.MULTILINE`, `^` matches only at position 0 and (on an already
stripped string, which has no trailing newline) `$` matches only at the end
of the string, so the substitution removes a leading literal `"```json"`
(seven characters) if present, and a trailing literal "```" (three
characters) if present, and nothing else.  (The two matches can never
overlap: a string that starts with the seven-character marker and ends
with the three-character marker has length at least ten unless the two
are disjoint anyway.) -/

/-- Remove one leading `"```json"` marker if present (the `^```json`
alternative of the regex). -/
def stripLeadingFence (s : List Char) : List Char :=
  if (txt "```json").isPrefixOf s then s.drop 7 else s

/-- Remove one trailing "```" marker if present (the "```$" alternative of
the regex). -/
def stripTrailingFence (s : List Char) : List Char :=
  if (txt "```").isPrefixOf s.reverse then (s.reverse.drop 3).reverse else s

/-- The whole `re.sub(r"^```json|```$", "", ·)` substitution. -/
def fenceSub (s : List Char) : List Char := stripTrailingFence (stripLeadingFence s)

/-- The full cleaning step of the coercer:
`re.sub(r"^```json|```$", "", raw_response.strip()).strip()`. -/
def clean (raw : List Char) : List Char := pyStrip (fenceSub (pyStrip raw))

/-! ### Python values produced by `json.loads` -/

/-- The JSON values `json.loads` can return (Python `None`/`bool`/number/
`str`/`list`/`dict`).  A number literal is kept exactly as
mantissa × 10 ^ exponent; `json.loads` additionally accepts the Python
extensions `NaN`, `Infinity` and `-Infinity`. -/
inductive Json where
  | null : Json
  | bool (b : Bool) : Json
  | num (mant : Int) (exp10 : Int) : Json
  | nan : Json
  | inf (neg : Bool) : Json
  | str (s : List Char) : Json
  | arr (elems : List Json) : Json
  | obj (members : List (List Char × Json)) : Json

/-- Whether a JSON value is a mapping (a Python `dict`). -/
def Json.isObj : Json → Bool
  | .obj _ => true
  | _ => false

/-! ### A model of Python `json.loads` (used at `main.py` lines 77 and 165)

Recursive-descent parser over the JSON grammar accepted by `json.loads`
with its default arguments: optional whitespace (space, tab, newline,
carriage return) between tokens, objects with string keys (a repeated key
overwrites the earlier value, as in a Python `dict`), arrays, strings with
the standard escapes (control characters below 0x20 are rejected, as with
the default `strict=True`), numbers without leading zeros or a bare
leading `+`, the literals `true`/`false`/`null`, and the Python
extensions `NaN`/`Infinity`/`-Infinity`.  The entire input must be
consumed up to trailing whitespace.  Recursion is bounded by an explicit
fuel that is always sufficient because every recursive call consumes at
least one character. -/

/-- JSON inter-token whitespace. -/
def isJsonWs (c : Char) : Bool :=
  (c == ' ') || (c == '\t') || (c == '\n') || (c == '\r')

/-- Skip JSON inter-token whitespace. -/
def skipWs (s : List Char) : List Char := s.dropWhile isJsonWs

/-- ASCII digit test. -/
def isDigit (c : Char) : Bool := ('0' ≤ c) && (c ≤ '9')

/-- Numeric value of an ASCII digit. -/
def digitVal (c : Char) : Nat := c.toNat - '0'.toNat

/-- Value of a digit string. -/
def digitsToNat (ds : List Char) : Nat :=
  ds.foldl (fun a c => a * 10 + digitVal c) 0

/-- Value of a hexadecimal digit, if any. -/
def hexVal (c : Char) : Option Nat :=
  if isDigit c then some (digitVal c)
  else if ('a' ≤ c) && (c ≤ 'f') then some (c.toNat - 'a'.toNat + 10)
  else if ('A' ≤ c) && (c ≤ 'F') then some (c.toNat - 'A'.toNat + 10)
  else none

/-- Parse the body of a JSON string literal (the opening quote already
consumed), returning the decoded text and the remaining input. -/
def parseStrBody (fuel : Nat) (s : List Char) (acc : List Char) :
    Option (List Char × List Char) :=
  match fuel, s with
  | 0, _ => none
  | _ + 1, [] => none
  | f + 1, c :: rest =>
    if c = '\x22' then some (acc.reverse, rest)
    else if c = '\\' then
      match rest with
      | [] => none
      | e :: rest2 =>
        if e = '\x22' then parseStrBody f rest2 ('\x22' :: acc)
        else if e = '\\' then parseStrBody f rest2 ('\\' :: acc)
        else if e = '/' then parseStrBody f rest2 ('/' :: acc)
        else if e = 'b' then parseStrBody f rest2 ('\x08' :: acc)
        else if e = 'f' then parseStrBody f rest2 ('\x0c' :: acc)
        else if e = 'n' then parseStrBody f rest2 ('\n' :: acc)
        else if e = 'r' then parseStrBody f rest2 ('\r' :: acc)
        else if e = 't' then parseStrBody f rest2 ('\t' :: acc)
        else if e = 'u' then
          match rest2 with
          | h1 :: h2 :: h3 :: h4 :: rest3 =>
            match hexVal h1, hexVal h2, hexVal h3, hexVal h4 with
            | some a, some b, some c2, some d =>
              parseStrBody f rest3 (Char.ofNat (((a * 16 + b) * 16 + c2) * 16 + d) :: acc)
            | _, _, _, _ => none
          | _ => none
        else none
    else if c.toNat < 32 then none
    else parseStrBody f rest (c :: acc)

/-- Parse the exponent digits of a JSON number (after `e`/`E`). -/
def parseExpTail (r : List Char) : Option (Int × List Char) :=
  let (eneg, r1) :=
    match r with
    | '+' :: t => (false, t)
    | '-' :: t => (true, t)
    | _ => (false, r)
  let ed := r1.takeWhile isDigit
  if ed = [] then none
  else
    let v : Int := (digitsToNat ed : Int)
    some (if eneg then -v else v, r1.dropWhile isDigit)

/-- Parse a JSON number starting at the current position. -/
def parseNumAt (s : List Char) : Option (Json × List Char) :=
  let (neg, s1) :=
    match s with
    | '-' :: r => (true, r)
    | _ => (false, s)
  match s1 with
  | [] => none
  | c :: _ =>
    if ¬ isDigit c then none
    else
      let ds := s1.takeWhile isDigit
      let s2 := s1.dropWhile isDigit
      if 2 ≤ ds.length ∧ ds.head? = some '0' then none
      else
        let fr : Option (List Char × List Char) :=
          match s2 with
          | '.' :: r =>
            let fd := r.takeWhile isDigit
            if fd = [] then none else some (fd, r.dropWhile isDigit)
          | _ => some ([], s2)
        match fr with
        | none => none
        | some (fd, s3) =>
          let ex : Option (Int × List Char) :=
            match s3 with
            | 'e' :: r => parseExpTail r
            | 'E' :: r => parseExpTail r
            | _ => some (0, s3)
          match ex with
          | none => none
          | some (e, s4) =>
            let mantNat := digitsToNat (ds ++ fd)
            let mant : Int := if neg then -(mantNat : Int) else (mantNat : Int)
            some (.num mant (e - (fd.length : Int)), s4)

/-- Insert a member into an object under Python `dict` semantics: a
repeated key keeps its first position but takes the last value. -/
def addMember (acc : List (List Char × Json)) (k : List Char) (v : Json) :
    List (List Char × Json) :=
  if acc.any (fun p => p.1 == k) then
    acc.map (fun p => if p.1 == k then (k, v) else p)
  else acc ++ [(k, v)]

mutual

/-- Parse one JSON value (leading whitespace allowed). -/
def parseValue : Nat → List Char → Option (Json × List Char)
  | 0, _ => none
  | f + 1, s =>
    match skipWs s with
    | [] => none
    | c :: rest =>
      if c = '\x7b' then
        match skipWs rest with
        | '\x7d' :: r => some (.obj [], r)
        | r2 => parseMembers f r2 []
      else if c = '[' then
        match skipWs rest with
        | ']' :: r => some (.arr [], r)
        | r2 => parseElements f r2 []
      else if c = '\x22' then
        match parseStrBody (rest.length + 1) rest [] with
        | some (t, r) => some (.str t, r)
        | none => none
      else if c = 't' then
        match rest with
        | 'r' :: 'u' :: 'e' :: r => some (.bool true, r)
        | _ => none
      else if c = 'f' then
        match rest with
        | 'a' :: 'l' :: 's' :: 'e' :: r => some (.bool false, r)
        | _ => none
      else if c = 'n' then
        match rest with
        | 'u' :: 'l' :: 'l' :: r => some (.null, r)
        | _ => none
      else if c = 'N' then
        match rest with
        | 'a' :: 'N' :: r => some (.nan, r)
        | _ => none
      else if c = 'I' then
        match rest with
        | 'n' :: 'f' :: 'i' :: 'n' :: 'i' :: 't' :: 'y' :: r => some (.inf false, r)
        | _ => none
      else if c = '-' then
        match rest with
        | 'I' :: 'n' :: 'f' :: 'i' :: 'n' :: 'i' :: 't' :: 'y' :: r => some (.inf true, r)
        | _ => parseNumAt (c :: rest)
      else if isDigit c then parseNumAt (c :: rest)
      else none

/-- Parse the members of a JSON object, positioned at a key (the opening
brace and any following whitespace already consumed). -/
def parseMembers : Nat → List Char → List (List Char × Json) →
    Option (Json × List Char)
  | 0, _, _ => none
  | f + 1, s, acc =>
    match s with
    | '\x22' :: rest =>
      match parseStrBody (rest.length + 1) rest [] with
      | some (k, r1) =>
        match skipWs r1 with
        | ':' :: r2 =>
          match parseValue f r2 with
          | some (v, r3) =>
            match skipWs r3 with
            | ',' :: r4 => parseMembers f (skipWs r4) (addMember acc k v)
            | '\x7d' :: r4 => some (.obj (addMember acc k v), r4)
            | _ => none
          | none => none
        | _ => none
      | none => none
    | _ => none

/-- Parse the elements of a JSON array, positioned at the first element
(the opening bracket and any following whitespace already consumed). -/
def parseElements : Nat → List Char → List Json → Option (Json × List Char)
  | 0, _, _ => none
  | f + 1, s, acc =>
    match parseValue f s with
    | some (v, r1) =>
      match skipWs r1 with
      | ',' :: r2 => parseElements f r2 (acc ++ [v])
      | ']' :: r2 => some (.arr (acc ++ [v]), r2)
      | _ => none
    | none => none

end

/-- Model of Python `json.loads`: parse one JSON value and require that
only whitespace follows it; any failure is an exception, modelled as
`none`. -/
def json_loads (s : List Char) : Option Json :=
  match parseValue (s.length + 1) s with
  | some (v, rest) => if skipWs rest = [] then some v else none
  | none => none

/-! ### The structured response coercer (`main.py` lines 74-80, 163-168) -/

/-- The coercion performed on each model output on the structured paths:
clean the raw text, try `json.loads`, and on any parse failure fall back
to `{"unstructured": raw_response}` with the original (uncleaned) text. -/
def coerce (raw : List Char) : Json :=
  match json_loads (clean raw) with
  | some v => v
  | none => .obj [(txt "unstructured", .str raw)]

/-! ### Session state and collaborator environment -/

/-- The two process-wide globals of `main.py` (lines 15-16), `None` at
startup. -/
structure SessionState where
  last_report_text : Option (List Char)
  last_history_text : Option (List Char)
deriving DecidableEq

/-- The state at process start: both globals are `None`. -/
def initState : SessionState := ⟨none, none⟩

/-- An HTTP response: status code plus the JSON body passed to
`JSONResponse`. -/
structure Response where
  status_code : Nat
  body : Json

/-- The external collaborators as seen by one request: the outcome of
`extract` (page texts, or a raised exception as `str(e)`) and the outcome
of `invoke_with_retry` on a given input (the returned mapping, or a
raised exception as `str(e)` after retries are exhausted). -/
structure Env where
  extract : Except (List Char) (List (List Char))
  invoke : List Char → Except (List Char) (List (List Char × List Char))

/-- `"\n\n".join([page.text for page in parsed_result.pages])`
(`main.py` line 52). -/
def joinPages (pages : List (List Char)) : List Char :=
  List.intercalate (txt "\n\n") pages

/-- Python truthiness of an optional string (`None` and `""` are falsy),
as used by `if not last_report_text:` and `if last_history_text:`. -/
def pyFalsyOpt (o : Option (List Char)) : Bool :=
  match o with
  | none => true
  | some s => s.isEmpty

/-- `str(e)` for a Starlette `HTTPException`:
`f"{status_code}: {detail}"`. -/
def httpExcStr (code : Nat) (detail : List Char) : List Char :=
  (toString code).data ++ txt ": " ++ detail

/-- The uniform error envelope every handler returns from its
`except Exception` block:
`JSONResponse({"status": "error", "error": str(e)}, status_code=500)`. -/
def errorEnvelope (e : List Char) : Response :=
  ⟨500, .obj [(txt "status", .str (txt "error")), (txt "error", .str e)]⟩

/-- The success body of the two structured endpoints:
`{"status": "success", "structured_data": structured}`. -/
def successBody (sd : Json) : Json :=
  .obj [(txt "status", .str (txt "success")), (txt "structured_data", sd)]

/-! ### Prompt builders -/

/-- The general-mode prompt (`main.py` lines 63-67): report text, then
history or the `Not provided` marker, then the user query, in that fixed
order. -/
def chat_final_input (report_text medical_history user_input : List Char) : List Char :=
  txt "Here is a patient\x27s medical report:\n\n" ++ report_text ++ txt "\n\n" ++
  txt "Patient\x27s medical history: " ++
  (if medical_history = [] then txt "Not provided" else medical_history) ++ txt "\n\n" ++
  txt "Patient\x27s query: " ++ user_input

/-- `combined_input` of `cardio_view` (`main.py` lines 105-107). -/
def cardio_combined (report_text : List Char) (history : Option (List Char)) : List Char :=
  txt "Medical Report:\n" ++ report_text ++ txt "\n\n" ++
  (if pyFalsyOpt history then []
   else txt "Patient Medical History:\n" ++ history.getD [] ++ txt "\n\n")

/-- The cardiology specialist prompt (`main.py` lines 110-158), an
f-string with `combined_input` interpolated near the end. -/
def cardio_prompt (combined_input : List Char) : List Char :=
  txt "
        You are Meddy, an AI assistant specialized in cardiology.

        **CRITICAL FIRST STEP: Check for Cardiac Relevance**
        Before analyzing, you MUST first determine if this report contains ANY cardiology-relevant parameters:
        - **Blood Tests**: Lipid profile, cholesterol, LDL, HDL, triglycerides, VLDL, cardiac enzymes (Troponin, CK-MB, NT-proBNP), electrolytes affecting heart (sodium/potassium), hemoglobin/anemia markers, etc.
        - **Imaging**: ECG, Echo, cardiac MRI, stress tests, etc.
        - **Specialized**: Heart rate, blood pressure, cardiac function tests, etc.

        Task:
        - Extract **only cardiology-relevant parameters** from the report
        - Include both **normal and abnormal values**
        - If **no cardiology-relevant parameters** are present in the report, return the JSON with:
            - greeting (with patient name if available)
            - overview: \x22No cardiology-relevant parameters were found in this report.\x22
            - abnormalities: \x22None detected.\x22
            - abnormalParameters: []  (empty array)
            - patient\x27sInsights: []  (empty array)
            - theGoodNews: \x22Your report does not show any cardiology-related concerns.\x22
            - clearNextSteps: \x22No cardiac-specific action needed based on this report. Please continue routine check-ups as advised by your physician.\x22
            - whenToWorry: \x22No immediate concerns related to heart health from this report.\x22
            - meddysTake: \x22Great news! This report doesn’t flag any heart-related issues.\x22
        - Return data strictly in the following JSON structure:

        \x7b
          \x22greeting\x22: \x22Hello [Patient Name], here is the interpretation of your report from a cardiology perspective.\x22,
          \x22overview\x22: \x22A concise summary of cardiac health from the report.\x22,
          \x22abnormalities\x22: \x22A sentence introducing abnormal findings (if any).\x22,
          \x22abnormalParameters\x22: [
            \x7b
              \x22name\x22: \x22Parameter name\x22,
              \x22value\x22: \x22Observed value\x22,
              \x22range\x22: \x22Reference range\x22,
              \x22status\x22: \x22high/low/normal\x22,
              \x22description\x22: \x22Cardiology-specific explanation.\x22
            \x7d
          ],
          \x22patient\x27sInsights\x22: [
            \x22Bullet point insights explained simply for the patient.\x22
          ],
          \x22theGoodNews\x22: \x22Positive cardiac-related findings (normal values).\x22,
          \x22clearNextSteps\x22: \x22Actionable suggestions to improve/maintain cardiac health.\x22,
          \x22whenToWorry\x22: \x22Red flag symptoms or when immediate consultation is required.\x22,
          \x22meddysTake\x22: \x22Friendly encouraging comment from Meddy.\x22
        \x7d

        Medical Report + History (extract only cardiac-relevant info):
        " ++ combined_input ++ txt "\n        "

/-- The follow-up prompt (`main.py` lines 188-206): the fixed behavioural
instructions with the raw follow-up question appended. -/
def followup_prompt (user_input : List Char) : List Char :=
  txt "You have already analyzed and summarized the patient\x27s medical report earlier. Now the patient is asking a follow-up question related to that summary.\n\nFirst, detect the intent behind the follow-up:\n- If it\x27s a greeting like \x27hello\x27, \x27hi\x27, or \x27hey\x27: respond briefly and kindly, no summary.\n- If it\x27s a goodbye like \x27bye\x27, \x27see you\x27, \x27thanks\x27: reply warmly and say you\x27re here if they need anything.\n- If it\x27s a real question (like about cholesterol or vitamin D): respond specifically based on the earlier medical report summary.\n\n📌 Important Rules:\n- DO NOT repeat the full medical summary again.\n- Keep your answers short, clear, and human. No essays.\n- Use simple, everyday language — imagine you\x27re explaining it to someone who isn\x27t from a medical background.\n- Refer to exact values if needed (e.g., \x27your LDL was 119 mg/dL\x27).\n- Be warm, friendly, and professional.\n- Personalize the answer if the patient\x27s name is known.\n\nFollow-up question from the patient: " ++
  user_input

/-- Python `str()` of a string-valued dict, used as the fallback in
`response.get("text", str(response))` of the follow-up handler. -/
def pyStrDict (d : List (List Char × List Char)) : List Char :=
  txt "\x7b" ++
  List.intercalate (txt ", ")
    (d.map (fun p => txt "\x27" ++ p.1 ++ txt "\x27: \x27" ++ p.2 ++ txt "\x27")) ++
  txt "\x7d"

/-! ### The handlers -/

/-- `POST /chat/` (`main.py` lines 32-93).  The whole handler body runs
inside `try: ... except Exception`, so the `HTTPException(400)` raised on
empty input is itself caught by the blanket handler and surfaces as the
500 error envelope.  Returns the response, the session state after the
request, and the list of model-chain invocations performed. -/
def chat_with_report (env : Env) (st : SessionState)
    (user_input medical_history : List Char) :
    Response × SessionState × List (List Char) :=
  if pyStrip user_input = [] then
    (errorEnvelope (httpExcStr 400 (txt "User input cannot be empty")), st, [])
  else
    match env.extract with
    | .error e => (errorEnvelope e, st, [])
    | .ok pages =>
      let report_text := joinPages pages
      let st1 : SessionState := { st with last_report_text := some report_text }
      let final_input := chat_final_input report_text medical_history user_input
      let st2 : SessionState := { st1 with last_history_text := some medical_history }
      match env.invoke final_input with
      | .error e => (errorEnvelope e, st2, [final_input])
      | .ok d =>
        let raw_response := (List.lookup (txt "text") d).getD []
        (⟨200, successBody (coerce raw_response)⟩, st2, [final_input])

/-- `POST /cardio_view` (`main.py` lines 95-177).  As in `/chat/`, the
`HTTPException(400)` raised when no report is stored is caught by the
blanket `except Exception` and surfaces as the 500 error envelope. -/
def cardio_view (env : Env) (st : SessionState) : Response × List (List Char) :=
  if pyFalsyOpt st.last_report_text then
    (errorEnvelope (httpExcStr 400 (txt "No report available. Upload a report first.")), [])
  else
    let prompt := cardio_prompt
      (cardio_combined (st.last_report_text.getD []) st.last_history_text)
    match env.invoke prompt with
    | .error e => (errorEnvelope e, [prompt])
    | .ok d =>
      let raw_response := (List.lookup (txt "text") d).getD []
      (⟨200, successBody (coerce raw_response)⟩, [prompt])

/-- `POST /followup/` (`main.py` lines 179-220). -/
def followup_chat (env : Env) (user_input : List Char) :
    Response × List (List Char) :=
  if pyStrip user_input = [] then
    (errorEnvelope (httpExcStr 400 (txt "Follow-up input cannot be empty")), [])
  else
    let final_prompt := followup_prompt user_input
    match env.invoke final_prompt with
    | .error e => (errorEnvelope e, [final_prompt])
    | .ok d =>
      (⟨200, .obj [(txt "status", .str (txt "success")),
                   (txt "response", .str ((List.lookup (txt "text") d).getD (pyStrDict d)))]⟩,
       [final_prompt])

/-- Body returned when the health probe finds the model chain responsive. -/
def healthyBody : Json :=
  .obj [(txt "status", .str (txt "healthy")),
        (txt "llm_status", .str (txt "responsive")),
        (txt "message", .str (txt "API is up and running 🚀"))]

/-- Body returned when the probe call succeeds but yields no usable text. -/
def degradedBody : Json :=
  .obj [(txt "status", .str (txt "degraded")),
        (txt "llm_status", .str (txt "unresponsive")),
        (txt "message", .str (txt "API is running, but LLM didn’t return a valid response ⚠️"))]

/-- Body returned when the probe call raises. -/
def unhealthyBody (e : List Char) : Json :=
  .obj [(txt "status", .str (txt "unhealthy")),
        (txt "llm_status", .str (txt "down")),
        (txt "message", .str (txt "LLM or system issue detected ❌")),
        (txt "error", .str e)]

/-- `GET /health` (`main.py` lines 222-250): probe the invoker with the
fixed token `"ping"`; healthy when the probe succeeds and the returned
mapping is truthy and contains a `"text"` key, degraded when it succeeds
without one, unhealthy when it raises. -/
def health_check (env : Env) : Response × List (List Char) :=
  match env.invoke (txt "ping") with
  | .ok d =>
    if (!d.isEmpty) && (List.lookup (txt "text") d).isSome then
      (⟨200, healthyBody⟩, [txt "ping"])
    else
      (⟨206, degradedBody⟩, [txt "ping"])
  | .error e => (⟨500, unhealthyBody e⟩, [txt "ping"])

/-- Environment whose invoker always yields the given outcome (used to
probe the handlers at fixed collaborator behaviours). -/
def probeEnv (o : Except (List Char) (List (List Char × List Char))) : Env :=
  ⟨.ok [], fun _ => o⟩

/-! ### Helper lemmas about prefixes, substrings and stripping -/

/-- Executable substring test (`pat` occurs somewhere in the text), used
to say a text contains no fence marker. -/
def hasSub (pat : List Char) : List Char → Bool
  | [] => pat.isPrefixOf []
  | c :: r => pat.isPrefixOf (c :: r) || hasSub pat r

lemma isPrefixOf_append_self (p r : List Char) : p.isPrefixOf (p ++ r) = true := by
  induction p with
  | nil => simp [List.isPrefixOf]
  | cons c t ih => simp [List.isPrefixOf, ih]

lemma isPrefixOf_left_of_append (p q t : List Char)
    (h : (p ++ q).isPrefixOf t = true) : p.isPrefixOf t = true := by
  induction p generalizing t with
  | nil => simp [List.isPrefixOf]
  | cons c p' ih =>
    cases t with
    | nil => simp [List.isPrefixOf] at h
    | cons d t' =>
      simp only [List.cons_append, List.isPrefixOf, Bool.and_eq_true] at h ⊢
      exact ⟨h.1, ih t' h.2⟩

lemma isPrefixOf_exists {p t : List Char} (h : p.isPrefixOf t = true) :
    ∃ r, t = p ++ r := by
  induction p generalizing t with
  | nil => exact ⟨t, rfl⟩
  | cons c p' ih =>
    cases t with
    | nil => simp [List.isPrefixOf] at h
    | cons d t' =>
      simp only [List.isPrefixOf, Bool.and_eq_true, beq_iff_eq] at h
      obtain ⟨r, hr⟩ := ih h.2
      exact ⟨r, by simp [← h.1, hr]⟩

lemma hasSub_of_isPrefixOf {pat s : List Char} (h : pat.isPrefixOf s = true) :
    hasSub pat s = true := by
  cases s with
  | nil => simpa [hasSub] using h
  | cons c r => simp [hasSub, h]

lemma hasSub_append_self (pat l : List Char) : hasSub pat (l ++ pat) = true := by
  induction l with
  | nil =>
    have h := isPrefixOf_append_self pat []
    rw [List.append_nil] at h
    simpa using hasSub_of_isPrefixOf h
  | cons c l' ih => simp [hasSub, ih]

lemma fenceSub_eq_self {t : List Char} (h : hasSub (txt "```") t = false) :
    fenceSub t = t := by
  have h1 : (txt "```json").isPrefixOf t = false := by
    by_contra hb
    rw [Bool.not_eq_false] at hb
    have hb' : ((txt "```") ++ (txt "json")).isPrefixOf t = true := by
      rw [show (txt "```") ++ (txt "json") = txt "```json" from rfl]
      exact hb
    have h3 := hasSub_of_isPrefixOf (isPrefixOf_left_of_append _ _ _ hb')
    rw [h] at h3
    exact Bool.false_ne_true h3
  have h2 : (txt "```").isPrefixOf t.reverse = false := by
    by_contra hb
    rw [Bool.not_eq_false] at hb
    obtain ⟨r, hr⟩ := isPrefixOf_exists hb
    have ht : t = r.reverse ++ txt "```" := by
      have h4 := congrArg List.reverse hr
      rw [List.reverse_reverse, List.reverse_append] at h4
      simpa using h4
    have h5 := hasSub_append_self (txt "```") r.reverse
    rw [← ht, h] at h5
    exact Bool.false_ne_true h5
  simp [fenceSub, stripLeadingFence, stripTrailingFence, h1, h2]

lemma length_pyTrimLeft_le (s : List Char) : (pyTrimLeft s).length ≤ s.length :=
  (List.dropWhile_sublist _).length_le

lemma length_pyTrimRight_le (s : List Char) : (pyTrimRight s).length ≤ s.length := by
  unfold pyTrimRight
  calc ((s.reverse.dropWhile isPySpace).reverse).length
      = (s.reverse.dropWhile isPySpace).length := by simp
    _ ≤ s.reverse.length := (List.dropWhile_sublist _).length_le
    _ = s.length := by simp

lemma pyStrip_eq_self_parts {j : List Char} (h : pyStrip j = j) :
    pyTrimLeft j = j ∧ pyTrimRight j = j := by
  have hlen : j.length ≤ (pyTrimLeft j).length := by
    conv_lhs => rw [← h]
    exact length_pyTrimRight_le _
  have h1 : pyTrimLeft j = j :=
    (List.dropWhile_sublist _).eq_of_length
      (Nat.le_antisymm (length_pyTrimLeft_le j) hlen)
  have h2 : pyTrimRight j = j := by
    unfold pyStrip at h
    rwa [h1] at h
  exact ⟨h1, h2⟩

lemma head_not_space {c : Char} {t : List Char}
    (h : pyTrimLeft (c :: t) = c :: t) : isPySpace c = false := by
  have h2 := List.dropWhile_eq_self_iff.mp h (by simp)
  simpa using h2

lemma clean_json_wrap {j : List Char} (hne : j ≠ []) (hstrip : pyStrip j = j) :
    clean (txt "```json\n" ++ (j ++ txt "\n```")) = j := by
  obtain ⟨hL, hR⟩ := pyStrip_eq_self_parts hstrip
  obtain ⟨c, t, hct⟩ : ∃ c t, j = c :: t := by
    cases j with
    | nil => exact absurd rfl hne
    | cons c t => exact ⟨c, t, rfl⟩
  have hc : isPySpace c = false := head_not_space (hct ▸ hL)
  have hRrev : j.reverse.dropWhile isPySpace = j.reverse := by
    have h4 := congrArg List.reverse hR
    rw [pyTrimRight, List.reverse_reverse] at h4
    exact h4
  have e1 : txt "```json\n" = '\x60' :: '\x60' :: '\x60' :: 'j' :: 's' :: 'o' :: 'n' :: '\n' :: [] := rfl
  have e2 : txt "\n```" = '\n' :: '\x60' :: '\x60' :: '\x60' :: [] := rfl
  have hA : pyTrimLeft (txt "```json\n" ++ (j ++ txt "\n```")) =
      txt "```json\n" ++ (j ++ txt "\n```") := by
    rw [e1]
    simp [pyTrimLeft, List.dropWhile_cons, isPySpace]
  have hB : pyTrimRight (txt "```json\n" ++ (j ++ txt "\n```")) =
      txt "```json\n" ++ (j ++ txt "\n```") := by
    unfold pyTrimRight
    rw [e1, e2]
    simp [List.reverse_append, List.dropWhile_cons, isPySpace]
  have hStrip1 : pyStrip (txt "```json\n" ++ (j ++ txt "\n```")) =
      txt "```json\n" ++ (j ++ txt "\n```") := by
    rw [pyStrip, hA, hB]
  have hpre : (txt "```json").isPrefixOf (txt "```json\n" ++ (j ++ txt "\n```")) = true := by
    rw [show txt "```json\n" ++ (j ++ txt "\n```") =
        txt "```json" ++ ('\n' :: (j ++ txt "\n```")) from by rw [e1]; rfl]
    exact isPrefixOf_append_self _ _
  have hlead : stripLeadingFence (txt "```json\n" ++ (j ++ txt "\n```")) =
      '\n' :: (j ++ txt "\n```") := by
    rw [stripLeadingFence, if_pos hpre, e1]
    rfl
  have e3 : txt "```" = '\x60' :: '\x60' :: '\x60' :: [] := rfl
  have hsrev : ('\n' :: (j ++ txt "\n```")).reverse =
      txt "```" ++ ('\n' :: (j.reverse ++ ['\n'])) := by
    rw [e2, e3]
    simp [List.reverse_append]
  have htrail : stripTrailingFence ('\n' :: (j ++ txt "\n```")) =
      '\n' :: (j ++ ['\n']) := by
    rw [stripTrailingFence, hsrev, if_pos (isPrefixOf_append_self _ _)]
    rw [show (txt "```" ++ ('\n' :: (j.reverse ++ ['\n']))).drop 3 =
        '\n' :: (j.reverse ++ ['\n']) from rfl]
    simp [List.reverse_append]
  have hD : pyStrip ('\n' :: (j ++ ['\n'])) = j := by
    have hc' : ¬ (isPySpace c = true) := by simp [hc]
    have hd1 : pyTrimLeft ('\n' :: (j ++ ['\n'])) = j ++ ['\n'] := by
      show List.dropWhile isPySpace ('\n' :: (j ++ ['\n'])) = j ++ ['\n']
      rw [List.dropWhile_cons, if_pos (show isPySpace '\n' = true from rfl),
        hct, List.cons_append, List.dropWhile_cons, if_neg hc']
    have hd2 : pyTrimRight (j ++ ['\n']) = j := by
      rw [pyTrimRight, List.reverse_append]
      simp only [List.reverse_cons, List.reverse_nil, List.nil_append, List.singleton_append]
      rw [List.dropWhile_cons]
      simp only [show isPySpace '\n' = true from rfl, if_true]
      rw [hRrev, List.reverse_reverse]
    rw [pyStrip, hd1, hd2]
  rw [clean, hStrip1, fenceSub, hlead, htrail, hD]

/-! ### Claim theorems -/

/-- C1: the claim says a specialist-view request with no ingested report
returns HTTP 400.  In the code the `HTTPException(status_code=400)` is
raised inside the handler's `try` block and caught by its own blanket
`except Exception`, so the caller actually receives the 500 error
envelope (whose error text still carries the intended 400 detail); the
model chain is indeed never invoked. -/
theorem c1_cardio_no_report (env : Env) (st : SessionState)
    (h : pyFalsyOpt st.last_report_text = true) :
    cardio_view env st =
      (errorEnvelope (httpExcStr 400 (txt "No report available. Upload a report first.")), []) ∧
    (cardio_view env st).1.status_code = 500 := by
  have heq : cardio_view env st =
      (errorEnvelope (httpExcStr 400 (txt "No report available. Upload a report first.")), []) := by
    rw [cardio_view, if_pos h]
  exact ⟨heq, by rw [heq]; rfl⟩

/-- Witness for C1 at the fresh session. -/
theorem c1_cardio_no_report_witness :
    pyFalsyOpt initState.last_report_text = true ∧
    (cardio_view (probeEnv (.ok [(txt "text", txt "pong")])) initState =
      (errorEnvelope (httpExcStr 400 (txt "No report available. Upload a report first.")), []) ∧
    (cardio_view (probeEnv (.ok [(txt "text", txt "pong")])) initState).1.status_code = 500) :=
  ⟨rfl, c1_cardio_no_report (probeEnv (.ok [(txt "text", txt "pong")])) initState rfl⟩

/-- C2: the claim says an empty `user_input` yields HTTP 400 with no
invocation.  The "no invocation" half holds, but the
`HTTPException(status_code=400)` is caught by the handler's own blanket
`except Exception`, so both `/chat/` and `/followup/` actually answer
with the 500 error envelope. -/
theorem c2_empty_input (env : Env) (st : SessionState)
    (user_input medical_history : List Char) (h : pyStrip user_input = []) :
    chat_with_report env st user_input medical_history =
      (errorEnvelope (httpExcStr 400 (txt "User input cannot be empty")), st, []) ∧
    followup_chat env user_input =
      (errorEnvelope (httpExcStr 400 (txt "Follow-up input cannot be empty")), []) ∧
    (errorEnvelope (httpExcStr 400 (txt "User input cannot be empty"))).status_code = 500 := by
  refine ⟨?_, ?_, rfl⟩
  · rw [chat_with_report, if_pos h]
  · rw [followup_chat, if_pos h]

/-- Witness for C2 at a whitespace-only input. -/
theorem c2_empty_input_witness :
    pyStrip (txt "   ") = [] ∧
    (chat_with_report (probeEnv (.ok [])) initState (txt "   ") [] =
      (errorEnvelope (httpExcStr 400 (txt "User input cannot be empty")), initState, []) ∧
    followup_chat (probeEnv (.ok [])) (txt "   ") =
      (errorEnvelope (httpExcStr 400 (txt "Follow-up input cannot be empty")), []) ∧
    (errorEnvelope (httpExcStr 400 (txt "User input cannot be empty"))).status_code = 500) :=
  ⟨rfl, c2_empty_input (probeEnv (.ok [])) initState (txt "   ") [] rfl⟩

/-- C3 counterexample: a successful probe whose mapping has `"text"` set
to the empty string is classified healthy (200), not degraded (206) as
the claim demands for empty text. -/
theorem c3_counterexample :
    (health_check (probeEnv (.ok [(txt "text", [])]))).1.status_code = 200 ∧
    (health_check (probeEnv (.ok [(txt "text", [])]))).1.body = healthyBody ∧
    (health_check (probeEnv (.ok [(txt "text", [])]))).1.status_code ≠ 206 :=
  ⟨rfl, rfl, by decide⟩

/-- C3 (amended): the health check classifies probe outcomes into exactly
three levels — unhealthy (500) when the model-chain call raises after
exhausting retries, degraded (206) when it succeeds but the returned
mapping lacks a `"text"` entry, and healthy (200) when it succeeds and
the mapping has a `"text"` entry, even when that text is empty; each
response body carries status, llm_status and message fields. -/
theorem c3_health_classification (e t : List Char)
    (d d' : List (List Char × List Char))
    (hd : List.lookup (txt "text") d = some t)
    (hd' : List.lookup (txt "text") d' = none) :
    health_check (probeEnv (.error e)) = (⟨500, unhealthyBody e⟩, [txt "ping"]) ∧
    health_check (probeEnv (.ok d)) = (⟨200, healthyBody⟩, [txt "ping"]) ∧
    health_check (probeEnv (.ok d')) = (⟨206, degradedBody⟩, [txt "ping"]) := by
  refine ⟨rfl, ?_, ?_⟩
  · have hne : d.isEmpty = false := by
      cases d with
      | nil => simp [List.lookup] at hd
      | cons p r => rfl
    simp [health_check, probeEnv, hne, hd]
  · simp [health_check, probeEnv, hd']

/-- Witness for C3 at concrete probe outcomes. -/
theorem c3_health_classification_witness :
    List.lookup (txt "text") [(txt "text", txt "pong")] = some (txt "pong") ∧
    List.lookup (txt "text") ([] : List (List Char × List Char)) = none ∧
    (health_check (probeEnv (.error (txt "boom"))) =
        (⟨500, unhealthyBody (txt "boom")⟩, [txt "ping"]) ∧
      health_check (probeEnv (.ok [(txt "text", txt "pong")])) =
        (⟨200, healthyBody⟩, [txt "ping"]) ∧
      health_check (probeEnv (.ok ([] : List (List Char × List Char)))) =
        (⟨206, degradedBody⟩, [txt "ping"])) :=
  ⟨rfl, rfl, c3_health_classification (txt "boom") (txt "pong") _ _ rfl rfl⟩

/-- C4 counterexample: on model output `"42"` the caller receives the
parsed JSON number 42 as `structured_data` — neither a mapping of named
sections nor the fallback wrapper. -/
theorem c4_counterexample :
    (chat_with_report ⟨.ok [txt "page"], fun _ => .ok [(txt "text", txt "42")]⟩
        initState (txt "hi") []).1 =
      ⟨200, successBody (Json.num 42 0)⟩ ∧
    (Json.num 42 0).isObj = false ∧
    Json.num 42 0 ≠ Json.obj [(txt "unstructured", Json.str (txt "42"))] :=
  ⟨rfl, rfl, fun h => Json.noConfusion h⟩

/-- C4 (amended): for every model output text the structured outcome is
exactly one of two cases — the JSON value parsed from the cleaned text
(of whatever JSON shape, not necessarily a mapping), or the fallback
wrapper on the exact raw text — never both, never a partial merge. -/
theorem c4_structured_outcome_dichotomy (st : SessionState)
    (pages : List (List Char)) (raw medical_history : List Char) :
    ∃ sd, (chat_with_report ⟨.ok pages, fun _ => .ok [(txt "text", raw)]⟩
        st (txt "hi") medical_history).1 = ⟨200, successBody sd⟩ ∧
      ((json_loads (clean raw) = some sd) ∨
       (json_loads (clean raw) = none ∧
        sd = Json.obj [(txt "unstructured", Json.str raw)])) := by
  have hne : ¬ (pyStrip (txt "hi") = []) := by decide
  refine ⟨coerce raw, ?_, ?_⟩
  · rw [chat_with_report, if_neg hne]
    simp [List.lookup]
  · cases h : json_loads (clean raw) with
    | some v =>
      have hc : coerce raw = v := by rw [coerce, h]
      left
      rw [hc]
    | none =>
      have hc : coerce raw = Json.obj [(txt "unstructured", Json.str raw)] := by
        rw [coerce, h]
      exact Or.inr ⟨rfl, hc⟩

/-- C5: when the cleaned model output fails to parse as JSON, the
request still completes with the 200 success envelope and the fallback
carries the exact original raw text (not its trimmed or fence-stripped
form). -/
theorem c5_parse_failure_fallback (st : SessionState)
    (pages : List (List Char)) (raw medical_history : List Char)
    (h : json_loads (clean raw) = none) :
    (chat_with_report ⟨.ok pages, fun _ => .ok [(txt "text", raw)]⟩
        st (txt "hi") medical_history).1 =
      ⟨200, successBody (Json.obj [(txt "unstructured", Json.str raw)])⟩ := by
  have hne : ¬ (pyStrip (txt "hi") = []) := by decide
  have hc : coerce raw = Json.obj [(txt "unstructured", Json.str raw)] := by
    rw [coerce, h]
  rw [chat_with_report, if_neg hne]
  simp [List.lookup, hc]

/-- Witness for C5 at an unparseable model output. -/
theorem c5_parse_failure_fallback_witness :
    json_loads (clean (txt "I am not JSON")) = none ∧
    (chat_with_report ⟨.ok [txt "page"], fun _ => .ok [(txt "text", txt "I am not JSON")]⟩
        initState (txt "hi") []).1 =
      ⟨200, successBody (Json.obj [(txt "unstructured", Json.str (txt "I am not JSON"))])⟩ :=
  ⟨rfl, c5_parse_failure_fallback initState [txt "page"] (txt "I am not JSON") [] rfl⟩

/-- C6 counterexample: plain "```" fences around a valid JSON mapping
are a leading/trailing fence marker pair, but the regex only strips a
leading marker spelled exactly "```json", so the step removes only the
trailing marker and the round-trip fails (the result coerces to the
fallback wrapper, not the original mapping). -/
theorem c6_counterexample :
    json_loads (txt "\x7b\x22a\x22: 1\x7d") = some (Json.obj [(txt "a", Json.num 1 0)]) ∧
    fenceSub (txt "```\n\x7b\x22a\x22: 1\x7d\n```") = txt "```\n\x7b\x22a\x22: 1\x7d\n" ∧
    coerce (txt "```\n\x7b\x22a\x22: 1\x7d\n```") =
      Json.obj [(txt "unstructured", Json.str (txt "```\n\x7b\x22a\x22: 1\x7d\n```"))] :=
  ⟨rfl, rfl, rfl⟩

/-- C6 (amended): the fence substitution is a no-op on text containing
no "```" marker at all, and removes a leading marker only when it is
spelled exactly "```json" together with a trailing "```" marker;
consequently wrapping a valid JSON mapping text in "```json" fences and
coercing reproduces the original mapping (the round-trip holds for the
fence format the model is instructed to emit, not for plain "```"
fences). -/
theorem c6_fence_round_trip (t j : List Char) (kvs : List (List Char × Json))
    (hnof : hasSub (txt "```") t = false)
    (hj : json_loads j = some (Json.obj kvs)) (hstrip : pyStrip j = j) :
    fenceSub t = t ∧
    coerce (txt "```json\n" ++ (j ++ txt "\n```")) = Json.obj kvs := by
  refine ⟨fenceSub_eq_self hnof, ?_⟩
  have hne : j ≠ [] := by
    intro h0
    rw [h0] at hj
    exact Option.noConfusion (show (none : Option Json) = some (Json.obj kvs) from hj)
  rw [coerce, clean_json_wrap hne hstrip, hj]

/-- Witness for C6 at fence-free text and a concrete mapping. -/
theorem c6_fence_round_trip_witness :
    hasSub (txt "```") (txt "plain model text") = false ∧
    json_loads (txt "\x7b\x22b\x22: 2\x7d") = some (Json.obj [(txt "b", Json.num 2 0)]) ∧
    pyStrip (txt "\x7b\x22b\x22: 2\x7d") = txt "\x7b\x22b\x22: 2\x7d" ∧
    (fenceSub (txt "plain model text") = txt "plain model text" ∧
      coerce (txt "```json\n" ++ (txt "\x7b\x22b\x22: 2\x7d" ++ txt "\n```")) =
        Json.obj [(txt "b", Json.num 2 0)]) :=
  ⟨rfl, rfl, rfl,
    c6_fence_round_trip (txt "plain model text") (txt "\x7b\x22b\x22: 2\x7d")
      [(txt "b", Json.num 2 0)] rfl rfl rfl⟩

/-- C7: an ingest request whose extraction collaborator raises returns
the error envelope, leaves both session fields exactly as they were, and
performs no model invocation. -/
theorem c7_extraction_failure_state_unchanged (st : SessionState)
    (user_input medical_history e : List Char)
    (inv : List Char → Except (List Char) (List (List Char × List Char)))
    (h : pyStrip user_input ≠ []) :
    chat_with_report ⟨.error e, inv⟩ st user_input medical_history =
      (errorEnvelope e, st, []) := by
  rw [chat_with_report, if_neg h]

/-- Witness for C7 at a populated prior session. -/
theorem c7_extraction_failure_state_unchanged_witness :
    pyStrip (txt "Please explain this report.") ≠ [] ∧
    chat_with_report ⟨.error (txt "parse failed"), fun _ => .ok []⟩
        ⟨some (txt "old report"), some (txt "old history")⟩
        (txt "Please explain this report.") [] =
      (errorEnvelope (txt "parse failed"),
        ⟨some (txt "old report"), some (txt "old history")⟩, []) :=
  ⟨by decide,
    c7_extraction_failure_state_unchanged
      ⟨some (txt "old report"), some (txt "old history")⟩
      (txt "Please explain this report.") [] (txt "parse failed")
      (fun _ => .ok []) (by decide)⟩

/-- C8: when extraction succeeds and the model-chain call then fails,
the request returns the error envelope but the freshly ingested report
text and the supplied history stay stored in session state (no
rollback), and a later specialist-view request builds its prompt from
that new report. -/
theorem c8_no_rollback_after_model_failure (st : SessionState)
    (pages : List (List Char)) (user_input medical_history e : List Char)
    (h : pyStrip user_input ≠ []) (hrep : joinPages pages ≠ []) :
    chat_with_report ⟨.ok pages, fun _ => .error e⟩ st user_input medical_history =
      (errorEnvelope e,
        ⟨some (joinPages pages), some medical_history⟩,
        [chat_final_input (joinPages pages) medical_history user_input]) ∧
    ∀ env2 : Env,
      (cardio_view env2 ⟨some (joinPages pages), some medical_history⟩).2 =
        [cardio_prompt (cardio_combined (joinPages pages) (some medical_history))] := by
  constructor
  · rw [chat_with_report, if_neg h]
  · intro env2
    have hguard : pyFalsyOpt (some (joinPages pages)) = false := by
      cases hp : joinPages pages with
      | nil => exact absurd hp hrep
      | cons a b => simp [pyFalsyOpt, hp]
    rw [cardio_view, if_neg (by simp [hguard])]
    cases hi : env2.invoke
        (cardio_prompt (cardio_combined (joinPages pages) (some medical_history))) with
    | error e2 => simp [hi]
    | ok d => simp [hi]

/-- Witness for C8 at a one-page report and a failing invoker. -/
theorem c8_no_rollback_after_model_failure_witness :
    pyStrip (txt "hi") ≠ [] ∧
    joinPages [txt "LDL: 119 mg/dL"] ≠ [] ∧
    (chat_with_report ⟨.ok [txt "LDL: 119 mg/dL"], fun _ => .error (txt "LLM down")⟩
        initState (txt "hi") (txt "hx") =
      (errorEnvelope (txt "LLM down"),
        ⟨some (joinPages [txt "LDL: 119 mg/dL"]), some (txt "hx")⟩,
        [chat_final_input (joinPages [txt "LDL: 119 mg/dL"]) (txt "hx") (txt "hi")])) ∧
    (cardio_view (probeEnv (.ok []))
        ⟨some (joinPages [txt "LDL: 119 mg/dL"]), some (txt "hx")⟩).2 =
      [cardio_prompt (cardio_combined (joinPages [txt "LDL: 119 mg/dL"]) (some (txt "hx")))] := by
  refine ⟨by decide, by decide, ?_, ?_⟩
  · exact (c8_no_rollback_after_model_failure initState [txt "LDL: 119 mg/dL"]
      (txt "hi") (txt "hx") (txt "LLM down") (by decide) (by decide)).1
  · exact (c8_no_rollback_after_model_failure initState [txt "LDL: 119 mg/dL"]
      (txt "hi") (txt "hx") (txt "LLM down") (by decide) (by decide)).2 (probeEnv (.ok []))

/-- C9: the general-mode prompt is the pure function
`chat_final_input` of the joined page texts, the history (with the
`Not provided` marker when empty) and the query, in that fixed order;
on the two-page scenario the report portion and marker are exactly as
claimed. -/
theorem c9_general_prompt_deterministic (st : SessionState)
    (pages : List (List Char)) (user_input medical_history : List Char)
    (d : List (List Char × List Char)) (h : pyStrip user_input ≠ []) :
    (chat_with_report ⟨.ok pages, fun _ => .ok d⟩ st user_input medical_history).2.2 =
      [chat_final_input (joinPages pages) medical_history user_input] ∧
    joinPages [txt "LDL: 119 mg/dL", txt "HDL: 45 mg/dL"] =
      txt "LDL: 119 mg/dL\n\nHDL: 45 mg/dL" ∧
    chat_final_input (txt "LDL: 119 mg/dL\n\nHDL: 45 mg/dL") []
        (txt "Please explain this report.") =
      txt "Here is a patient\x27s medical report:\n\nLDL: 119 mg/dL\n\nHDL: 45 mg/dL\n\nPatient\x27s medical history: Not provided\n\nPatient\x27s query: Please explain this report." := by
  refine ⟨?_, rfl, rfl⟩
  rw [chat_with_report, if_neg h]

/-- Witness for C9 at the two-page scenario of the spec. -/
theorem c9_general_prompt_deterministic_witness :
    pyStrip (txt "Please explain this report.") ≠ [] ∧
    ((chat_with_report
        ⟨.ok [txt "LDL: 119 mg/dL", txt "HDL: 45 mg/dL"], fun _ => .ok []⟩
        initState (txt "Please explain this report.") []).2.2 =
      [chat_final_input (joinPages [txt "LDL: 119 mg/dL", txt "HDL: 45 mg/dL"]) []
        (txt "Please explain this report.")] ∧
    joinPages [txt "LDL: 119 mg/dL", txt "HDL: 45 mg/dL"] =
      txt "LDL: 119 mg/dL\n\nHDL: 45 mg/dL" ∧
    chat_final_input (txt "LDL: 119 mg/dL\n\nHDL: 45 mg/dL") []
        (txt "Please explain this report.") =
      txt "Here is a patient\x27s medical report:\n\nLDL: 119 mg/dL\n\nHDL: 45 mg/dL\n\nPatient\x27s medical history: Not provided\n\nPatient\x27s query: Please explain this report.") :=
  ⟨by decide,
    c9_general_prompt_deterministic initState
      [txt "LDL: 119 mg/dL", txt "HDL: 45 mg/dL"]
      (txt "Please explain this report.") [] [] (by decide)⟩

/-- C10 (implicit): a successful invocation whose result mapping lacks a
`"text"` key is treated as the empty string, which fails JSON parsing,
so the chat request returns the 200 success envelope with
`structured_data = {"unstructured": ""}` rather than an error. -/
theorem c10_missing_text_key (st : SessionState)
    (pages : List (List Char)) (medical_history : List Char)
    (d : List (List Char × List Char))
    (h : List.lookup (txt "text") d = none) :
    (chat_with_report ⟨.ok pages, fun _ => .ok d⟩ st (txt "hi") medical_history).1 =
      ⟨200, successBody (Json.obj [(txt "unstructured", Json.str [])])⟩ := by
  have hne : ¬ (pyStrip (txt "hi") = []) := by decide
  rw [chat_with_report, if_neg hne]
  simp only [h]
  rfl

/-- Witness for C10 at a mapping with only an unrelated key. -/
theorem c10_missing_text_key_witness :
    List.lookup (txt "text") [(txt "data", txt "x")] = none ∧
    (chat_with_report ⟨.ok [txt "page"], fun _ => .ok [(txt "data", txt "x")]⟩
        initState (txt "hi") []).1 =
      ⟨200, successBody (Json.obj [(txt "unstructured", Json.str [])])⟩ :=
  ⟨rfl, c10_missing_text_key initState [txt "page"] [] [(txt "data", txt "x")] rfl⟩
